import Mathlib

/-!
A verification development for the retrieval and context-assembly subsystem
of the turbulence-model parameter recommender.

The Python source (src/retrieval_system.py, src/document_processor.py,
src/turbulence_models.py, src/vector_store.py) is shallowly embedded below:
pure functions become Lean functions over `String`/`List`, Python `int`
becomes `Int`/`Nat`, fallible external calls become `Except` parameters,
and the one piece of mutable state (the retriever's `connected` flag)
becomes explicit state passing.  Strings are modelled through their
underlying character lists; the Python operations used by the source
(`str.split`, `str.strip`, `str.lower`, `str.replace`, slicing, `in`,
`" ".join`, `re.sub` for the two patterns appearing in the source) are
given executable models named `py...`.
-/

/-- ASCII whitespace, the character class matched by the regex `\s` and by
Python `str.strip` / `str.split` on the ASCII texts this code handles. -/
def pyIsSpace (c : Char) : Bool :=
  c = ' ' || c = '\t' || c = '\n' || c = '\r' || c = '\x0b' || c = '\x0c'

/-- Model of `re.sub(r'\s+', ' ', text)` on the character list: every maximal
run of whitespace characters is replaced by a single space. -/
def collapseWs : List Char → List Char
  | [] => []
  | [c] => if pyIsSpace c then [' '] else [c]
  | a :: b :: rest =>
    if pyIsSpace a then
      if pyIsSpace b then collapseWs (b :: rest)
      else ' ' :: collapseWs (b :: rest)
    else a :: collapseWs (b :: rest)

/-- Worker for `subNlPairs`, structurally recursive on a fuel argument so
that it evaluates by kernel reduction; every step strictly shortens the
list, so fuel equal to the list length (as supplied by `subNlPairs`) never
runs out and the fuel-exhausted branch is unreachable. -/
def subNlPairsAux : Nat → List Char → List Char
  | _, [] => []
  | 0, l => l
  | fuel + 1, c :: rest =>
    let ws := rest.takeWhile pyIsSpace
    if c = '\n' ∧ ws.contains '\n' then
      let k := ws.length - 1 - (ws.reverse.findIdx (· = '\n'))
      '\n' :: '\n' :: subNlPairsAux fuel (rest.drop (k + 1))
    else c :: subNlPairsAux fuel rest

/-- Model of `re.sub(r'\n\s*\n', '\n\n', text)`: scanning left to right, a
newline followed by a (greedily maximal) whitespace run that still contains a
later newline is rewritten, together with that run up to its last newline, to
exactly two newlines; scanning resumes after the match. -/
def subNlPairs (l : List Char) : List Char := subNlPairsAux l.length l

/-- Model of Python `str.strip()` on the character list. -/
def stripChars (l : List Char) : List Char :=
  (l.dropWhile pyIsSpace).rdropWhile pyIsSpace

/-- Python `str.strip()`. -/
def pyStrip (s : String) : String := ⟨stripChars s.data⟩

/-- `DocumentProcessor._clean_text` (src/document_processor.py lines 74-81):
collapse whitespace runs, collapse newline pairs, then strip.  (After the
first substitution no newline survives, so the second is inert there, but it
is modelled faithfully.) -/
def clean_text (text : String) : String :=
  ⟨stripChars (subNlPairs (collapseWs text.data))⟩

/-- Helper for `pySplit`: accumulate the current word (reversed) while
scanning. -/
def pySplitAux : List Char → List Char → List (List Char)
  | [], acc => if acc.isEmpty then [] else [acc.reverse]
  | c :: t, acc =>
    if pyIsSpace c then
      if acc.isEmpty then pySplitAux t [] else acc.reverse :: pySplitAux t []
    else pySplitAux t (c :: acc)

/-- Python `str.split()` with no arguments: split on whitespace runs,
discarding empty pieces. -/
def pySplit (s : String) : List String :=
  (pySplitAux s.data []).map (⟨·⟩)

/-- Python `str.lower()` (ASCII; the source's lookup anchors are ASCII). -/
def pyLower (s : String) : String := ⟨s.data.map Char.toLower⟩

/-- Python slicing `s[:n]` with a nonnegative bound. -/
def strTake (s : String) (n : Nat) : String := ⟨s.data.take n⟩

/-- Python slicing `s[:n]` where `n` may be negative, as produced by the
truncation arithmetic in `get_context_for_generation`: a negative bound
counts from the end of the string. -/
def pySliceI (s : String) (n : Int) : String :=
  if 0 ≤ n then ⟨s.data.take n.toNat⟩
  else ⟨s.data.take (s.data.length - n.natAbs)⟩

/-- Substring occurrence on character lists (Python's `needle in hay`). -/
def hasSub : List Char → List Char → Bool
  | [], needle => needle.isEmpty
  | h :: t, needle => needle.isPrefixOf (h :: t) || hasSub t needle

/-- Python's `needle in hay` for strings. -/
def strContains (hay needle : String) : Bool := hasSub hay.data needle.data

/-- Python `s.replace(a, b)` restricted to single-character patterns, the
only form the source uses (`replace("_", "-")`, `replace("_", " ")`). -/
def charReplace (s : String) (a b : Char) : String :=
  ⟨s.data.map (fun c => if c = a then b else c)⟩

/-- Python `"".join(parts)`. -/
def pyJoin (parts : List String) : String := ⟨(parts.map String.data).flatten⟩

/-- Python `w.isalpha()` (ASCII; all registry description words that pass the
length filter are ASCII). -/
def pyIsAlphaStr (w : String) : Bool :=
  !w.data.isEmpty && w.data.all Char.isAlpha

/-- `ParameterType` enum (src/turbulence_models.py lines 5-12). -/
inductive ParameterType where
  | dimensionless
  | length
  | time
  | velocity
  | kinematic_viscosity
  | energy
  | dissipation
deriving DecidableEq

/-- `TurbulenceParameter` (src/turbulence_models.py lines 14-22).  Python
floats are exact decimal literals here and are embedded as rationals. -/
structure TurbulenceParameter where
  name : String
  description : String
  parameter_type : ParameterType
  default_value : Option ℚ := none
  min_value : Option ℚ := none
  max_value : Option ℚ := none
  units : Option String := none
  typical_range : Option String := none
deriving DecidableEq

/-- `TurbulenceModel` (src/turbulence_models.py lines 24-31). -/
structure TurbulenceModel where
  name : String
  full_name : String
  description : String
  category : String
  parameters : List TurbulenceParameter
  applications : List String
  limitations : List String
deriving DecidableEq

/-- The `k_epsilon` registry entry (src/turbulence_models.py lines 35-104). -/
def k_epsilon_model : TurbulenceModel :=
  { name := "k_epsilon"
    full_name := "k-ε (k-epsilon)"
    description := "Two-equation eddy-viscosity model solving transport equations for turbulent kinetic energy (k) and dissipation rate (ε)"
    category := "RANS"
    parameters := [
      { name := "Cmu", description := "Turbulent viscosity constant",
        parameter_type := ParameterType.dimensionless, default_value := some 0.09,
        min_value := some 0.05, max_value := some 0.15,
        units := some "dimensionless", typical_range := some "0.08-0.12" },
      { name := "C1epsilon", description := "Dissipation equation constant C1",
        parameter_type := ParameterType.dimensionless, default_value := some 1.44,
        min_value := some 1.2, max_value := some 1.6,
        units := some "dimensionless", typical_range := some "1.35-1.50" },
      { name := "C2epsilon", description := "Dissipation equation constant C2",
        parameter_type := ParameterType.dimensionless, default_value := some 1.92,
        min_value := some 1.8, max_value := some 2.1,
        units := some "dimensionless", typical_range := some "1.85-2.0" },
      { name := "sigma_k", description := "Prandtl number for turbulent kinetic energy",
        parameter_type := ParameterType.dimensionless, default_value := some 1.0,
        min_value := some 0.5, max_value := some 2.0,
        units := some "dimensionless", typical_range := some "0.8-1.3" },
      { name := "sigma_epsilon", description := "Prandtl number for dissipation rate",
        parameter_type := ParameterType.dimensionless, default_value := some 1.3,
        min_value := some 1.0, max_value := some 1.8,
        units := some "dimensionless", typical_range := some "1.2-1.4" }]
    applications := [
      "Free shear flows",
      "Wall-bounded flows with mild pressure gradients",
      "Industrial flow applications",
      "Environmental flows"]
    limitations := [
      "Poor performance in adverse pressure gradients",
      "Overestimates spreading rate of round jets",
      "Struggles with strong streamline curvature",
      "Not suitable for transitional flows"] }

/-- The `k_omega_sst` registry entry (src/turbulence_models.py lines 106-225). -/
def k_omega_sst_model : TurbulenceModel :=
  { name := "k_omega_sst"
    full_name := "k-ω SST (Shear Stress Transport)"
    description := "Hybrid model combining k-ω near walls with k-ε in free stream, includes cross-diffusion term and stress limiter"
    category := "RANS"
    parameters := [
      { name := "beta_star", description := "Closure coefficient for turbulent kinetic energy destruction",
        parameter_type := ParameterType.dimensionless, default_value := some 0.09,
        min_value := some 0.05, max_value := some 0.15,
        units := some "dimensionless", typical_range := some "0.08-0.12" },
      { name := "alpha1", description := "Closure coefficient for ω equation in inner region",
        parameter_type := ParameterType.dimensionless, default_value := some 0.553,
        min_value := some 0.4, max_value := some 0.7,
        units := some "dimensionless", typical_range := some "0.5-0.6" },
      { name := "beta1", description := "Closure coefficient for ω destruction in inner region",
        parameter_type := ParameterType.dimensionless, default_value := some 0.075,
        min_value := some 0.05, max_value := some 0.1,
        units := some "dimensionless", typical_range := some "0.07-0.08" },
      { name := "alpha2", description := "Closure coefficient for ω equation in outer region",
        parameter_type := ParameterType.dimensionless, default_value := some 0.44,
        min_value := some 0.3, max_value := some 0.6,
        units := some "dimensionless", typical_range := some "0.4-0.5" },
      { name := "beta2", description := "Closure coefficient for ω destruction in outer region",
        parameter_type := ParameterType.dimensionless, default_value := some 0.0828,
        min_value := some 0.06, max_value := some 0.12,
        units := some "dimensionless", typical_range := some "0.07-0.09" },
      { name := "sigma_k1", description := "Prandtl number for k equation in inner region",
        parameter_type := ParameterType.dimensionless, default_value := some 0.85,
        min_value := some 0.5, max_value := some 1.2,
        units := some "dimensionless", typical_range := some "0.8-0.9" },
      { name := "sigma_omega1", description := "Prandtl number for ω equation in inner region",
        parameter_type := ParameterType.dimensionless, default_value := some 0.5,
        min_value := some 0.3, max_value := some 0.8,
        units := some "dimensionless", typical_range := some "0.4-0.6" },
      { name := "sigma_k2", description := "Prandtl number for k equation in outer region",
        parameter_type := ParameterType.dimensionless, default_value := some 1.0,
        min_value := some 0.7, max_value := some 1.5,
        units := some "dimensionless", typical_range := some "0.9-1.2" },
      { name := "sigma_omega2", description := "Prandtl number for ω equation in outer region",
        parameter_type := ParameterType.dimensionless, default_value := some 0.856,
        min_value := some 0.6, max_value := some 1.2,
        units := some "dimensionless", typical_range := some "0.8-0.9" },
      { name := "a1", description := "Stress limiter constant",
        parameter_type := ParameterType.dimensionless, default_value := some 0.31,
        min_value := some 0.2, max_value := some 0.5,
        units := some "dimensionless", typical_range := some "0.25-0.35" }]
    applications := [
      "Adverse pressure gradient flows",
      "Separated flows",
      "Airfoil and wing aerodynamics",
      "Heat transfer applications",
      "Turbomachinery flows"]
    limitations := [
      "Higher computational cost than standard k-ε",
      "Sensitive to freestream values in external flows",
      "May predict early transition in some cases"] }

/-- The `spalart_allmaras` registry entry (src/turbulence_models.py lines 227-316). -/
def spalart_allmaras_model : TurbulenceModel :=
  { name := "spalart_allmaras"
    full_name := "Spalart-Allmaras"
    description := "One-equation model solving transport equation for modified turbulent viscosity, designed for aerodynamic flows"
    category := "RANS"
    parameters := [
      { name := "Cb1", description := "Production constant",
        parameter_type := ParameterType.dimensionless, default_value := some 0.1355,
        min_value := some 0.1, max_value := some 0.2,
        units := some "dimensionless", typical_range := some "0.13-0.14" },
      { name := "Cb2", description := "Diffusion constant",
        parameter_type := ParameterType.dimensionless, default_value := some 0.622,
        min_value := some 0.5, max_value := some 0.8,
        units := some "dimensionless", typical_range := some "0.6-0.65" },
      { name := "Cv1", description := "Viscosity constant",
        parameter_type := ParameterType.dimensionless, default_value := some 7.1,
        min_value := some 6.0, max_value := some 8.0,
        units := some "dimensionless", typical_range := some "7.0-7.2" },
      { name := "Cw1", description := "Wall destruction constant",
        parameter_type := ParameterType.dimensionless, default_value := some 3.239,
        min_value := some 3.0, max_value := some 3.5,
        units := some "dimensionless", typical_range := some "3.2-3.3" },
      { name := "Cw2", description := "Wall destruction constant",
        parameter_type := ParameterType.dimensionless, default_value := some 0.3,
        min_value := some 0.2, max_value := some 0.4,
        units := some "dimensionless", typical_range := some "0.25-0.35" },
      { name := "Cw3", description := "Wall destruction constant",
        parameter_type := ParameterType.dimensionless, default_value := some 2.0,
        min_value := some 1.5, max_value := some 2.5,
        units := some "dimensionless", typical_range := some "1.9-2.1" },
      { name := "sigma", description := "Prandtl number for turbulent viscosity",
        parameter_type := ParameterType.dimensionless, default_value := some 0.667,
        min_value := some 0.5, max_value := some 1.0,
        units := some "dimensionless", typical_range := some "0.6-0.7" }]
    applications := [
      "Aerodynamic flows around airfoils and wings",
      "External aerodynamics",
      "Flows with mild separation",
      "Aerospace applications"]
    limitations := [
      "Primarily calibrated for aerodynamic flows",
      "Less suitable for free shear flows",
      "Limited performance in complex geometries",
      "Not ideal for heat transfer predictions"] }

/-- The `reynolds_stress` registry entry (src/turbulence_models.py lines 318-408). -/
def reynolds_stress_model : TurbulenceModel :=
  { name := "reynolds_stress"
    full_name := "Reynolds Stress Model (RSM)"
    description := "Seven-equation model solving transport equations for all Reynolds stress components and dissipation rate"
    category := "RANS"
    parameters := [
      { name := "Cmu", description := "Turbulent viscosity constant",
        parameter_type := ParameterType.dimensionless, default_value := some 0.09,
        min_value := some 0.05, max_value := some 0.15,
        units := some "dimensionless", typical_range := some "0.08-0.12" },
      { name := "C1epsilon", description := "Dissipation equation constant C1",
        parameter_type := ParameterType.dimensionless, default_value := some 1.44,
        min_value := some 1.2, max_value := some 1.6,
        units := some "dimensionless", typical_range := some "1.4-1.5" },
      { name := "C2epsilon", description := "Dissipation equation constant C2",
        parameter_type := ParameterType.dimensionless, default_value := some 1.92,
        min_value := some 1.8, max_value := some 2.1,
        units := some "dimensionless", typical_range := some "1.9-2.0" },
      { name := "C1", description := "Slow pressure-strain constant",
        parameter_type := ParameterType.dimensionless, default_value := some 1.8,
        min_value := some 1.5, max_value := some 2.2,
        units := some "dimensionless", typical_range := some "1.7-1.9" },
      { name := "C2", description := "Rapid pressure-strain constant",
        parameter_type := ParameterType.dimensionless, default_value := some 0.6,
        min_value := some 0.4, max_value := some 0.8,
        units := some "dimensionless", typical_range := some "0.55-0.65" },
      { name := "sigma_epsilon", description := "Prandtl number for dissipation rate",
        parameter_type := ParameterType.dimensionless, default_value := some 1.3,
        min_value := some 1.0, max_value := some 1.8,
        units := some "dimensionless", typical_range := some "1.2-1.4" },
      { name := "sigma_k", description := "Prandtl number for turbulent kinetic energy",
        parameter_type := ParameterType.dimensionless, default_value := some 1.0,
        min_value := some 0.5, max_value := some 2.0,
        units := some "dimensionless", typical_range := some "0.8-1.3" }]
    applications := [
      "Complex flows with strong streamline curvature",
      "Swirling flows",
      "Flows with strong anisotropy",
      "Secondary flow prediction",
      "Buoyant flows"]
    limitations := [
      "High computational cost",
      "Complex implementation",
      "Convergence difficulties",
      "Still relies on gradient-diffusion assumption for some terms"] }

/-- `TURBULENCE_MODELS` (src/turbulence_models.py lines 34-409), in
insertion order. -/
def TURBULENCE_MODELS : List (String × TurbulenceModel) :=
  [("k_epsilon", k_epsilon_model),
   ("k_omega_sst", k_omega_sst_model),
   ("spalart_allmaras", spalart_allmaras_model),
   ("reynolds_stress", reynolds_stress_model)]

/-- `get_model` (src/turbulence_models.py lines 415-417): dictionary `.get`,
exact-match on the key. -/
def get_model (model_name : String) : Option TurbulenceModel :=
  (TURBULENCE_MODELS.find? (fun p => p.1 == model_name)).map Prod.snd

/-- `RetrievalSystem.construct_search_query`
(src/retrieval_system.py lines 27-79). -/
def construct_search_query (turbulence_model : String)
    (user_description : String := "") (focus_area : String := "") : String :=
  match get_model turbulence_model with
  | none => turbulence_model ++ " turbulence model parameters " ++ user_description
  | some model_info =>
    let query_parts : List String :=
      [model_info.full_name,
       charReplace model_info.name '_' '-',
       model_info.category ++ " turbulence model"]
    let param_terms : List String :=
      model_info.parameters.foldl (fun acc param =>
        let acc := acc ++ [param.name]
        if param.description.isEmpty then acc
        else
          let desc_words := pySplit (pyLower param.description)
          let key_words := desc_words.filter (fun w => 4 < w.length && pyIsAlphaStr w)
          acc ++ key_words.take 2) []
    let query_parts := query_parts ++ param_terms.take 10
    let query_parts :=
      if model_info.applications.isEmpty then query_parts
      else query_parts ++ model_info.applications.take 3
    let query_parts :=
      if (pyStrip user_description).isEmpty then query_parts
      else query_parts ++ [pyStrip user_description]
    let query_parts :=
      if (pyStrip focus_area).isEmpty then query_parts
      else query_parts ++ [pyStrip focus_area]
    let query := String.intercalate " " query_parts
    let query := charReplace query '_' ' '
    let query := String.intercalate " " (pySplit query)
    strTake query 500

/-- The static synonym table of `expand_query_with_synonyms`
(src/retrieval_system.py lines 186-200), in declaration order.  The
non-ASCII synonym characters are transcribed byte-for-byte as they appear in
the source file. -/
def expansions : List (String × List String) :=
  [("k-epsilon", ["k-Îµ", "k epsilon", "k_epsilon", "kinetic energy dissipation"]),
   ("k-omega", ["k-Ï‰", "k omega", "k_omega", "kinetic energy frequency"]),
   ("SST", ["Shear Stress Transport", "Menter SST", "k-omega SST"]),
   ("spalart", ["Spalart-Allmaras", "SA model", "one equation model"]),
   ("reynolds", ["Reynolds stress", "RSM", "second moment closure"]),
   ("viscosity", ["turbulent viscosity", "eddy viscosity", "kinematic viscosity"]),
   ("dissipation", ["energy dissipation", "epsilon", "turbulent dissipation"]),
   ("production", ["turbulence production", "kinetic energy production"]),
   ("constants", ["coefficients", "parameters", "closure constants"]),
   ("wall", ["near-wall", "wall treatment", "wall function"]),
   ("boundary", ["boundary conditions", "BC", "wall BC"]),
   ("separation", ["flow separation", "separated flow", "adverse gradient"]),
   ("pressure", ["pressure gradient", "adverse pressure gradient", "APG"])]

/-- `RetrievalSystem.expand_query_with_synonyms`
(src/retrieval_system.py lines 182-212): each table anchor that occurs as a
substring of the lowercased query contributes its first two synonyms. -/
def expand_query_with_synonyms (base_query : String) : String :=
  let query_lower := pyLower base_query
  let expanded_terms :=
    expansions.foldl (fun acc p =>
      if strContains query_lower p.1 then acc ++ p.2.take 2 else acc) []
  if expanded_terms.isEmpty then base_query
  else base_query ++ " " ++ String.intercalate " " expanded_terms

/-- The spec's notion of an anchor term occurring in the query ignoring
case (spec 4.3: scan the query, case-insensitively, for anchor terms);
stated separately from the source so the two can be compared. -/
def occursIgnoringCase (query anchor : String) : Bool :=
  strContains (pyLower query) (pyLower anchor)

/-- Metadata attached to a vector-index hit; in the source this is the
Pinecone metadata dictionary, whose keys may be absent (`.get` defaults). -/
structure HitMetadata where
  source : Option String := none
  type : Option String := none
  chunk_index : Option Int := none
  total_chunks : Option Int := none
deriving DecidableEq

/-- One element of the list returned by
`VectorStore.query_similar_documents` (src/vector_store.py lines 142-151):
id, score, metadata, and `text_preview = metadata.get('text_preview', '')`.
The similarity score, a Python float, is embedded as a rational. -/
structure QueryHit where
  id : String
  score : ℚ
  metadata : HitMetadata
  text_preview : String
deriving DecidableEq

/-- The nested `chunk_info` dictionary built by
`retrieve_relevant_documents` (src/retrieval_system.py lines 112-115). -/
structure ChunkInfo where
  index : Int
  total : Int
deriving DecidableEq

/-- One enhanced result of `retrieve_relevant_documents`
(src/retrieval_system.py lines 106-116); also the candidate-document shape
consumed by `get_context_for_generation`. -/
structure EnhancedDoc where
  id : String
  relevance_score : ℚ
  content_preview : String
  source : String
  document_type : String
  chunk_info : ChunkInfo
deriving DecidableEq

/-- The per-hit mapping inside `retrieve_relevant_documents`
(src/retrieval_system.py lines 105-117): unresolved `source` and `type`
metadata default to the string literal `"Unknown"`; unresolved chunk indices
default to the integers 0 and 1. -/
def enhance_hit (result : QueryHit) : EnhancedDoc :=
  { id := result.id
    relevance_score := result.score
    content_preview := result.text_preview
    source := result.metadata.source.getD "Unknown"
    document_type := result.metadata.type.getD "Unknown"
    chunk_info := { index := result.metadata.chunk_index.getD 0,
                    total := result.metadata.total_chunks.getD 1 } }

/-- The retriever's mutable state: `self.connected`
(src/retrieval_system.py line 11).  The vector-store handle itself is an
external collaborator and is represented by the outcome parameters of the
operations that consult it. -/
structure RetrievalSystem where
  connected : Bool
deriving DecidableEq

/-- `RetrievalSystem.retrieve_relevant_documents`
(src/retrieval_system.py lines 81-124).  `query_result` is the outcome of
the embedding-provider/vector-index call (`query_similar_documents` and
anything else inside the `try` block): `Except.error` models a raised
provider exception, caught at lines 122-124 and surfaced as an empty list;
`Except.ok hits` models a successful top-k query. -/
def retrieve_relevant_documents (st : RetrievalSystem)
    (query_result : Except String (List QueryHit)) : List EnhancedDoc :=
  if !st.connected then []
  else
    match query_result with
    | Except.error _ => []
    | Except.ok results => results.map enhance_hit

/-- `RetrievalSystem.initialize` (src/retrieval_system.py lines 13-25),
named `init_retrieval_system` here.  `connect_result` is the outcome of
`vector_store.connect_to_index()`: `Except.ok true` on success,
`Except.ok false` when the index does not exist, `Except.error` when the
call raises.  Returns the Python return value paired with the new state. -/
def init_retrieval_system (st : RetrievalSystem)
    (connect_result : Except String Bool) : Bool × RetrievalSystem :=
  match connect_result with
  | Except.ok true => (true, { st with connected := true })
  | Except.ok false => (false, st)
  | Except.error _ => (false, st)

/-- Zero-padded three-digit rendering of a number below 1000. -/
def pad3 (k : Nat) : String :=
  if k < 10 then "00" ++ toString k
  else if k < 100 then "0" ++ toString k
  else toString k

/-- Model of the Python fixed-point formatting used in the document header,
`(Relevance: score to 3 decimals)`: the score, a Python float, is embedded
as a rational and rounded to three decimal places (half up), by computing
the floor of `1000·q + 1/2` directly on the numerator and denominator.
(Python formats the nearest IEEE double with half-even ties; the two
renderings agree on the scores appearing in this development.) -/
def formatScore (q : ℚ) : String :=
  let n : Int := (2000 * q.num + (q.den : Int)).fdiv (2 * (q.den : Int))
  let m := n.natAbs
  (if n < 0 then "-" else "") ++ toString (m / 1000) ++ "." ++ pad3 (m % 1000)

/-- The per-document header built at src/retrieval_system.py line 155, for
the document at 0-based position `i`:
a newline, three dashes, `Document`, the 1-based rank, the relevance score
to three decimals in parentheses, three dashes, a newline. -/
def docHeader (i : Nat) (score : ℚ) : String :=
  "\n--- Document " ++ toString (i + 1) ++ " (Relevance: " ++ formatScore score ++ ") ---\n"

/-- The greedy packing loop of `get_context_for_generation`
(src/retrieval_system.py lines 153-171), returning
`(context_parts, sources, relevance_scores)`.  `i` is the 0-based position
of the first document of `docs` in the full candidate list and `current`
is Python's `current_length`.  The `current = 0` branch is the
single-first-document truncation special case (lines 160-165); the
`current ≠ 0` branch is the bare `break` (line 166). -/
def packLoop (maxLen : Int) : List EnhancedDoc → Nat → Int →
    List String × List String × List ℚ
  | [], _, _ => ([], [], [])
  | doc :: rest, i, current =>
    let header := docHeader i doc.relevance_score
    let content := doc.content_preview
    if current + header.length + content.length > maxLen then
      if current = 0 then
        let available : Int := maxLen - header.length - 50
        let content := pySliceI content available ++ "...[truncated]"
        ([header ++ content], [doc.source], [doc.relevance_score])
      else ([], [], [])
    else
      let r := packLoop maxLen rest (i + 1) (current + header.length + content.length)
      ((header ++ content) :: r.1, doc.source :: r.2.1, doc.relevance_score :: r.2.2)

/-- The dictionary returned by `get_context_for_generation`
(src/retrieval_system.py lines 140-145 and 175-180). -/
structure ContextBundle where
  context_text : String
  sources : List String
  relevance_scores : List ℚ
  total_documents : Nat
deriving DecidableEq

/-- `RetrievalSystem.get_context_for_generation`
(src/retrieval_system.py lines 126-180), parameterized by the list of
documents produced by the internal `retrieve_relevant_documents` call
(top_k = 8): the zero-document early return (lines 138-145), then greedy
packing and assembly with `total_documents = len(sources)`. -/
def get_context_for_generation (documents : List EnhancedDoc)
    (max_context_length : Int := 4000) : ContextBundle :=
  match documents with
  | [] => { context_text := "", sources := [], relevance_scores := [], total_documents := 0 }
  | _ :: _ =>
    let r := packLoop max_context_length documents 0 0
    { context_text := pyJoin r.1
      sources := r.2.1
      relevance_scores := r.2.2
      total_documents := r.2.1.length }

/-- State-passing form of `construct_search_query`: the method body
(src/retrieval_system.py lines 27-79) contains no assignment to
`self.connected`, so the state it returns is its input state. -/
def construct_search_query_st (st : RetrievalSystem)
    (turbulence_model user_description focus_area : String) :
    String × RetrievalSystem :=
  (construct_search_query turbulence_model user_description focus_area, st)

/-- State-passing form of `retrieve_relevant_documents`
(src/retrieval_system.py lines 81-124): no assignment to `self.connected`
on any path, including the not-connected early return and the exception
handler. -/
def retrieve_relevant_documents_st (st : RetrievalSystem)
    (query_result : Except String (List QueryHit)) :
    List EnhancedDoc × RetrievalSystem :=
  (retrieve_relevant_documents st query_result, st)

/-- State-passing form of `get_context_for_generation`
(src/retrieval_system.py lines 126-180): retrieves (top_k = 8) and packs;
no assignment to `self.connected` on any path. -/
def get_context_for_generation_st (st : RetrievalSystem)
    (query_result : Except String (List QueryHit)) (max_context_length : Int) :
    ContextBundle × RetrievalSystem :=
  (get_context_for_generation (retrieve_relevant_documents st query_result)
    max_context_length, st)

/-- State-passing form of `expand_query_with_synonyms`
(src/retrieval_system.py lines 182-212): pure computation, no assignment to
`self.connected`. -/
def expand_query_with_synonyms_st (st : RetrievalSystem) (base_query : String) :
    String × RetrievalSystem :=
  (expand_query_with_synonyms base_query, st)

/-- A chunk record produced by `DocumentProcessor.chunk_text`
(src/document_processor.py lines 90-102): the chunk text plus the copied
caller metadata (kept abstract as `α`) and the added positional fields. -/
structure Chunk (α : Type) where
  text : String
  meta : α
  chunk_index : Nat
  total_chunks : Nat
  chunk_size : Nat
deriving DecidableEq

/-- `DocumentProcessor.chunk_text` (src/document_processor.py lines 83-104),
parameterized by the text splitter `self.text_splitter.split_text` (an
external langchain collaborator): empty-after-strip input yields no chunks;
otherwise each split piece is wrapped with its index, the sibling count and
its length.  Note that the input text is passed to the splitter as given —
`_clean_text` is not applied here. -/
def chunk_text (split_text : String → List String) (text : String) {α : Type}
    (metadata : α) : List (Chunk α) :=
  if (pyStrip text).data.isEmpty then []
  else
    let chunks := split_text text
    chunks.enum.map (fun p =>
      { text := p.2, meta := metadata, chunk_index := p.1,
        total_chunks := chunks.length, chunk_size := p.2.length })

/-- Character-level fallback windows for the modelled splitter: fixed-size
windows advancing by `step`, with `fuel` bounding the recursion. -/
def charWindows (size step : Nat) : Nat → List Char → List (List Char)
  | 0, _ => []
  | _, [] => []
  | fuel + 1, l =>
    if l.length ≤ size then [l]
    else l.take size :: charWindows size step fuel (l.drop step)

/-- Modelled from the spec: the text splitter `chunk_text` delegates to is
the external langchain `RecursiveCharacterTextSplitter`
(src/document_processor.py lines 13-17), which is not part of this
repository.  Following spec 4.1, splitting tries the separator hierarchy in
order — paragraph breaks, line breaks, spaces, then single characters —
honoring `chunk_size` (target maximum characters) and `chunk_overlap`
(characters repeated between consecutive character-level windows); any text
not longer than `chunk_size` is returned as a single chunk. -/
def splitBySeps (chunk_size chunk_overlap : Nat) :
    List String → String → List String
  | [], t => (charWindows chunk_size (max 1 (chunk_size - chunk_overlap))
      t.data.length t.data).map (⟨·⟩)
  | s :: rest, t =>
    if t.length ≤ chunk_size then [t]
    else ((t.splitOn s).map (splitBySeps chunk_size chunk_overlap rest)).flatten

/-- Modelled from the spec: the full separator hierarchy of the source's
splitter configuration (src/document_processor.py line 16), with the empty
separator realized as the character-level fallback. -/
def modelSplitText (chunk_size chunk_overlap : Nat) (text : String) : List String :=
  splitBySeps chunk_size chunk_overlap ["\n\n", "\n", " "] text

/-- The splitter instance of the default `DocumentProcessor`
(src/document_processor.py line 10: chunk_size 1000, chunk_overlap 200). -/
def defaultSplitText : String → List String := modelSplitText 1000 200

/-- A placeholder document, used only as the out-of-range default of
`List.getD` in statements about packed positions. -/
def dummyDoc : EnhancedDoc :=
  { id := "", relevance_score := 0, content_preview := "", source := "",
    document_type := "", chunk_info := { index := 0, total := 1 } }

theorem strLen_append (a b : String) : (a ++ b).length = a.length + b.length := by
  show ((a ++ b).data).length = a.data.length + b.data.length
  simp

theorem strTake_length_le (s : String) (n : Nat) : (strTake s n).length ≤ n := by
  show (s.data.take n).length ≤ n
  simp [List.length_take]

theorem pyJoin_length (parts : List String) :
    (pyJoin parts).length = (parts.map String.length).sum := by
  show ((parts.map String.data).flatten).length = (parts.map String.length).sum
  rw [List.length_flatten, List.map_map]
  rfl

theorem docHeader_length_pos (i : Nat) (q : ℚ) : 0 < (docHeader i q).length := by
  have h : ("\n--- Document " ++ toString (i + 1)).length =
      14 + (toString (i + 1)).length := by
    rw [strLen_append]
    norm_num [show ("\n--- Document " : String).length = 14 from rfl]
  simp only [docHeader, strLen_append, h]
  omega

theorem pySliceI_length_le (s : String) (n : Int) (h : 0 ≤ n) :
    ((pySliceI s n).length : Int) ≤ n := by
  have : pySliceI s n = ⟨s.data.take n.toNat⟩ := by rw [pySliceI, if_pos h]
  rw [this]
  show ((s.data.take n.toNat).length : Int) ≤ n
  have h1 : (s.data.take n.toNat).length ≤ n.toNat := by simp [List.length_take]
  omega

/-- C5: packing with zero retrieved documents is the valid non-error outcome
with empty context text, empty sources, empty relevance scores and
`total_documents = 0` (src/retrieval_system.py lines 138-145); the embedded
function is total, so no exception is possible. -/
theorem get_context_zero_documents (max_context_length : Int) :
    get_context_for_generation [] max_context_length =
      { context_text := "", sources := [], relevance_scores := [],
        total_documents := 0 } := rfl

/-- C6: `retrieve_relevant_documents` returns the empty list both when the
retriever is not connected (precondition failure, src/retrieval_system.py
lines 88-90) and when the provider/index call fails (exception caught at
lines 122-124); the embedded function is total, so neither case can crash. -/
theorem retrieve_empty_on_disconnect_or_failure (st : RetrievalSystem)
    (query_result : Except String (List QueryHit))
    (h : st.connected = false ∨ ∃ e, query_result = Except.error e) :
    retrieve_relevant_documents st query_result = [] := by
  rcases h with h | ⟨e, rfl⟩
  · simp [retrieve_relevant_documents, h]
  · by_cases hc : st.connected <;> simp [retrieve_relevant_documents, hc]

theorem retrieve_empty_on_disconnect_or_failure_witness :
    retrieve_relevant_documents { connected := false }
      (Except.ok [{ id := "h1", score := mkRat 1 2,
                    metadata := { source := some "s" }, text_preview := "p" }]) = [] ∧
    retrieve_relevant_documents { connected := true }
      (Except.error "provider down") = [] :=
  ⟨retrieve_empty_on_disconnect_or_failure _ _ (Or.inl rfl),
   retrieve_empty_on_disconnect_or_failure _ _ (Or.inr ⟨"provider down", rfl⟩)⟩

/-- C7: the anchor `SST` of the static expansion table can never fire.  The
query `SST` contains the anchor term `SST` ignoring case, yet
`expand_query_with_synonyms` returns it unchanged, appending none of the
anchor's synonyms: the loop tests the raw table key against the lowercased
query (src/retrieval_system.py lines 202-207), and the uppercase key `SST`
is never a substring of a lowercased string.  This contradicts the function's
own table entry and the spec's case-insensitive scan. -/
theorem expand_query_sst_anchor_never_fires :
    occursIgnoringCase "SST" "SST" = true ∧
    expand_query_with_synonyms "SST" = "SST" := by decide

/-- C9 (counterexample): a hit whose metadata resolves none of the optional
fields is mapped with `chunk_info` defaulting to the integers 0 and 1
(src/retrieval_system.py lines 113-114), not to the string `"Unknown"`; only
`source` and `document_type` default to `"Unknown"`. -/
theorem enhance_hit_chunk_defaults_are_integers :
    (enhance_hit { id := "d", score := mkRat 1 2, metadata := {}, text_preview := "p" }).chunk_info
      = { index := 0, total := 1 } ∧
    (enhance_hit { id := "d", score := mkRat 1 2, metadata := {}, text_preview := "p" }).source
      = "Unknown" := by decide

/-- C9 (amended): in the per-hit mapping of `retrieve_relevant_documents`,
unresolved `source` and `type` metadata default to the literal string
`"Unknown"`, while unresolved chunk metadata defaults to the integers 0
(index) and 1 (total). -/
theorem enhance_hit_defaults (h : QueryHit) :
    (h.metadata.source = none → (enhance_hit h).source = "Unknown") ∧
    (h.metadata.type = none → (enhance_hit h).document_type = "Unknown") ∧
    (h.metadata.chunk_index = none → (enhance_hit h).chunk_info.index = 0) ∧
    (h.metadata.total_chunks = none → (enhance_hit h).chunk_info.total = 1) := by
  refine ⟨fun hm => ?_, fun hm => ?_, fun hm => ?_, fun hm => ?_⟩ <;>
    simp [enhance_hit, hm]

theorem enhance_hit_defaults_witness :
    (enhance_hit { id := "w", score := mkRat 3 4, metadata := {}, text_preview := "t" }).source
        = "Unknown" ∧
    (enhance_hit { id := "w", score := mkRat 3 4, metadata := {}, text_preview := "t" }).document_type
        = "Unknown" ∧
    (enhance_hit { id := "w", score := mkRat 3 4, metadata := {}, text_preview := "t" }).chunk_info.index
        = 0 ∧
    (enhance_hit { id := "w", score := mkRat 3 4, metadata := {}, text_preview := "t" }).chunk_info.total
        = 1 :=
  ⟨(enhance_hit_defaults _).1 rfl, (enhance_hit_defaults _).2.1 rfl,
   (enhance_hit_defaults _).2.2.1 rfl, (enhance_hit_defaults _).2.2.2 rfl⟩

/-- C10: every query-time operation of the retriever returns its state
unchanged — the Python method bodies contain no assignment to
`self.connected`, on any path including the error paths — and `initialize`
either leaves `connected` unchanged or moves it from `false` to `true`
(src/retrieval_system.py lines 13-25); it never clears it. -/
theorem query_ops_preserve_connected (st : RetrievalSystem)
    (m d f q : String) (query_result : Except String (List QueryHit))
    (maxLen : Int) (connect_result : Except String Bool) :
    (construct_search_query_st st m d f).2.connected = st.connected ∧
    (retrieve_relevant_documents_st st query_result).2.connected = st.connected ∧
    (get_context_for_generation_st st query_result maxLen).2.connected = st.connected ∧
    (expand_query_with_synonyms_st st q).2.connected = st.connected ∧
    ((init_retrieval_system st connect_result).2.connected = st.connected ∨
     (st.connected = false ∧
      (init_retrieval_system st connect_result).2.connected = true)) := by
  refine ⟨rfl, rfl, rfl, rfl, ?_⟩
  match connect_result with
  | Except.ok true =>
    cases hc : st.connected
    · exact Or.inr ⟨rfl, rfl⟩
    · exact Or.inl (by simp [init_retrieval_system, hc])
  | Except.ok false => exact Or.inl rfl
  | Except.error e => exact Or.inl rfl

theorem packLoop_struct (maxLen : Int) (docs : List EnhancedDoc) :
    ∀ (i : Nat) (current : Int), 0 ≤ current →
    ∃ n, n ≤ docs.length ∧
      (packLoop maxLen docs i current).2.1 = (docs.take n).map EnhancedDoc.source ∧
      (packLoop maxLen docs i current).2.2 =
        (docs.take n).map EnhancedDoc.relevance_score ∧
      (packLoop maxLen docs i current).1.length = n ∧
      ∀ j, j < n →
        ∃ body,
          (packLoop maxLen docs i current).1.getD j "" =
            docHeader (i + j) ((docs.getD j dummyDoc).relevance_score) ++ body ∧
          (body = (docs.getD j dummyDoc).content_preview ∨
           (current = 0 ∧ j = 0 ∧
            body = pySliceI (docs.getD j dummyDoc).content_preview
              (maxLen -
                ((docHeader (i + j)
                    ((docs.getD j dummyDoc).relevance_score)).length : Int) - 50)
              ++ "...[truncated]")) := by
  induction docs with
  | nil =>
    intro i current _
    exact ⟨0, by simp, by simp [packLoop], by simp [packLoop], by simp [packLoop],
      fun j hj => absurd hj (Nat.not_lt_zero j)⟩
  | cons d rest ih =>
    intro i current hcur
    by_cases hfit : maxLen < current + ((docHeader i d.relevance_score).length : Int) +
        (d.content_preview.length : Int)
    · by_cases h0 : current = 0
      · subst h0
        have hfit2 : maxLen < ((docHeader i d.relevance_score).length : Int) +
            (d.content_preview.length : Int) := by
          rw [zero_add] at hfit
          exact hfit
        refine ⟨1, by simp, ?_, ?_, ?_, ?_⟩
        · simp [packLoop, hfit2]
        · simp [packLoop, hfit2]
        · simp [packLoop, hfit2]
        · intro j hj
          interval_cases j
          refine ⟨pySliceI d.content_preview
            (maxLen - ((docHeader i d.relevance_score).length : Int) - 50)
            ++ "...[truncated]", ?_, ?_⟩
          · simp [packLoop, hfit2]
          · exact Or.inr ⟨rfl, rfl, by simp⟩
      · refine ⟨0, by simp, ?_, ?_, ?_, ?_⟩
        · simp [packLoop, hfit, h0]
        · simp [packLoop, hfit, h0]
        · simp [packLoop, hfit, h0]
        · intro j hj
          exact absurd hj (Nat.not_lt_zero j)
    · have hpos : 0 < (docHeader i d.relevance_score).length := docHeader_length_pos i _
      have hcur2 : (0 : Int) ≤ current + ((docHeader i d.relevance_score).length : Int) +
          (d.content_preview.length : Int) := by positivity
      obtain ⟨n, hn, hs, hr, hp, hb⟩ :=
        ih (i + 1) (current + ((docHeader i d.relevance_score).length : Int) +
          (d.content_preview.length : Int)) hcur2
      refine ⟨n + 1, by simpa using hn, ?_, ?_, ?_, ?_⟩
      · simp [packLoop, hfit, List.take_succ_cons, hs]
      · simp [packLoop, hfit, List.take_succ_cons, hr]
      · simp [packLoop, hfit, hp]
      · intro j hj
        match j with
        | 0 =>
          refine ⟨d.content_preview, ?_, Or.inl ?_⟩
          · simp [packLoop, hfit]
          · simp
        | j' + 1 =>
          obtain ⟨body, hbody, hdisj⟩ := hb j' (by omega)
          refine ⟨body, ?_, ?_⟩
          · have hstep : (packLoop maxLen (d :: rest) i current).1.getD (j' + 1) "" =
                (packLoop maxLen rest (i + 1)
                  (current + ((docHeader i d.relevance_score).length : Int) +
                    (d.content_preview.length : Int))).1.getD j' "" := by
              simp [packLoop, hfit]
            rw [hstep, hbody]
            have harith : i + 1 + j' = i + (j' + 1) := by omega
            simp [harith]
          · rcases hdisj with h | ⟨habs, _⟩
            · exact Or.inl (by simpa using h)
            · exfalso
              have hz : (0 : Int) < ((docHeader i d.relevance_score).length : Int) := by
                exact_mod_cast hpos
              omega

theorem packLoop_total_le (maxLen : Int) (docs : List EnhancedDoc) :
    ∀ (i : Nat) (current : Int), 0 < current → current ≤ maxLen →
    current + ((((packLoop maxLen docs i current).1.map String.length).sum : Nat) : Int)
      ≤ maxLen := by
  induction docs with
  | nil =>
    intro i current _ hle
    simpa [packLoop] using hle
  | cons d rest ih =>
    intro i current hpos hle
    by_cases hfit : maxLen < current + ((docHeader i d.relevance_score).length : Int) +
        (d.content_preview.length : Int)
    · have h0 : ¬ current = 0 := by omega
      simpa [packLoop, hfit, h0] using hle
    · have hstep := ih (i + 1)
        (current + ((docHeader i d.relevance_score).length : Int) +
          (d.content_preview.length : Int)) (by
            have hz : 0 < (docHeader i d.relevance_score).length :=
              docHeader_length_pos i _
            have hz2 : (0 : Int) < ((docHeader i d.relevance_score).length : Int) := by
              exact_mod_cast hz
            omega)
        (by omega)
      have hlen : ((docHeader i d.relevance_score ++ d.content_preview).length : Int) =
          ((docHeader i d.relevance_score).length : Int) +
          (d.content_preview.length : Int) := by
        rw [strLen_append]; push_cast; ring
      simp only [packLoop, hfit, if_neg, ite_false, List.map_cons, List.sum_cons]
      push_cast
      push_cast at hstep hlen
      omega

/-- C2 (counterexample): with one retrieved document and
`max_context_length = 10`, the single-first-document truncation special case
overshoots the budget: the reserved space `max_context_length - len(header)
- 50` is negative, the negative Python slice keeps up to all but the last 79
characters, and the assembled context (header plus truncation marker, 53
characters) exceeds `max_context_length = 10`. -/
theorem get_context_truncation_overshoot :
    10 < (get_context_for_generation
      [{ id := "d", relevance_score := mkRat 9 10, content_preview := "",
         source := "s", document_type := "t",
         chunk_info := { index := 0, total := 1 } }] 10).context_text.length := by
  decide

/-- C2 (amended): the packed context respects the budget,
`len(context_text) ≤ max_context_length`, for every invocation whose budget
is nonnegative and admits the truncation reserve of the first candidate
(`max_context_length ≥ len(first header) + 50`); smaller budgets can be
overshot by the single-first-document truncation case. -/
theorem get_context_length_bounded (docs : List EnhancedDoc) (maxLen : Int)
    (hnn : 0 ≤ maxLen)
    (hres : ∀ d ∈ docs.take 1,
      ((docHeader 0 d.relevance_score).length : Int) + 50 ≤ maxLen) :
    (((get_context_for_generation docs maxLen).context_text.length : Nat) : Int)
      ≤ maxLen := by
  match docs with
  | [] => simpa [get_context_for_generation] using hnn
  | d :: rest =>
    have hd : ((docHeader 0 d.relevance_score).length : Int) + 50 ≤ maxLen :=
      hres d (by simp)
    show ((pyJoin (packLoop maxLen (d :: rest) 0 0).1).length : Int) ≤ maxLen
    rw [pyJoin_length]
    by_cases hfit : maxLen < (0 : Int) +
        ((docHeader 0 d.relevance_score).length : Int) +
        (d.content_preview.length : Int)
    · have hfit2 : maxLen < ((docHeader 0 d.relevance_score).length : Int) +
          (d.content_preview.length : Int) := by
        rw [zero_add] at hfit
        exact hfit
      have hslice : ((pySliceI d.content_preview
          (maxLen - ((docHeader 0 d.relevance_score).length : Int) - 50)).length : Int)
          ≤ maxLen - ((docHeader 0 d.relevance_score).length : Int) - 50 :=
        pySliceI_length_le _ _ (by omega)
      have hmark : (("...[truncated]" : String).length : Int) = 14 := rfl
      simp only [packLoop, hfit2, zero_add, if_pos, if_true, List.map_cons,
        List.map_nil, List.sum_cons, List.sum_nil, strLen_append]
      push_cast
      push_cast at hslice hmark
      omega
    · have hfit2 : ¬ maxLen < ((docHeader 0 d.relevance_score).length : Int) +
          (d.content_preview.length : Int) := by
        rw [zero_add] at hfit
        exact hfit
      have hz : 0 < (docHeader 0 d.relevance_score).length := docHeader_length_pos 0 _
      have hz2 : (0 : Int) < ((docHeader 0 d.relevance_score).length : Int) := by
        exact_mod_cast hz
      have hrec := packLoop_total_le maxLen rest 1
        (((docHeader 0 d.relevance_score).length : Int) +
          (d.content_preview.length : Int)) (by omega) (by omega)
      simp only [packLoop, hfit2, zero_add, if_neg, ite_false, List.map_cons,
        List.sum_cons, strLen_append]
      push_cast
      push_cast at hrec
      omega

theorem get_context_length_bounded_witness :
    (((get_context_for_generation
        [{ id := "w", relevance_score := mkRat 9 10, content_preview := "hello world",
           source := "s", document_type := "t",
           chunk_info := { index := 0, total := 1 } }] 200).context_text.length : Nat)
      : Int) ≤ 200 :=
  get_context_length_bounded _ 200 (by decide) (by decide)

/-- C3: packing is rank-prioritized — the documents included in the returned
bundle are exactly a front segment (take `n`) of the ranked candidate list,
so if the candidate at rank `i` is not included (`n ≤ i`) then neither is
any candidate at rank `j > i` (`n ≤ j`): once a candidate fails to fit the
loop breaks and never substitutes a later candidate in. -/
theorem pack_rank_priority (docs : List EnhancedDoc) (maxLen : Int) :
    ∃ n, n ≤ docs.length ∧
      (get_context_for_generation docs maxLen).sources =
        (docs.take n).map EnhancedDoc.source ∧
      ∀ i j : Nat, i < j → n ≤ i → n ≤ j := by
  match docs with
  | [] =>
    exact ⟨0, by simp, by simp [get_context_for_generation],
      fun i j hij hni => by omega⟩
  | d :: rest =>
    obtain ⟨n, hn, hs, -, -, -⟩ := packLoop_struct maxLen (d :: rest) 0 0 le_rfl
    exact ⟨n, hn, hs, fun i j hij hni => by omega⟩

/-- C4: the returned bundle is well-formed — `sources`, `relevance_scores`
and `total_documents` agree in length, and they are exactly the sources and
scores of the front segment of candidates actually embedded in
`context_text`, in embedding order: the context text is the concatenation
of one part per included document, the part at position `j` being that
document's header followed by its preview content (truncated, for the
single-first-document special case). -/
theorem pack_bundle_parallel (docs : List EnhancedDoc) (maxLen : Int) :
    (get_context_for_generation docs maxLen).sources.length =
      (get_context_for_generation docs maxLen).relevance_scores.length ∧
    (get_context_for_generation docs maxLen).total_documents =
      (get_context_for_generation docs maxLen).sources.length ∧
    ∃ n, n ≤ docs.length ∧
      (get_context_for_generation docs maxLen).sources =
        (docs.take n).map EnhancedDoc.source ∧
      (get_context_for_generation docs maxLen).relevance_scores =
        (docs.take n).map EnhancedDoc.relevance_score ∧
      ∃ parts : List String,
        parts.length = n ∧
        (get_context_for_generation docs maxLen).context_text = pyJoin parts ∧
        ∀ j, j < n →
          ∃ body,
            parts.getD j "" =
              docHeader j ((docs.getD j dummyDoc).relevance_score) ++ body ∧
            (body = (docs.getD j dummyDoc).content_preview ∨
             (j = 0 ∧
              body = pySliceI (docs.getD j dummyDoc).content_preview
                (maxLen -
                  ((docHeader j
                      ((docs.getD j dummyDoc).relevance_score)).length : Int) - 50)
                ++ "...[truncated]")) := by
  match docs with
  | [] =>
    refine ⟨rfl, rfl, 0, by simp, by simp [get_context_for_generation],
      by simp [get_context_for_generation], [], rfl, by rfl, ?_⟩
    intro j hj
    exact absurd hj (Nat.not_lt_zero j)
  | d :: rest =>
    obtain ⟨n, hn, hs, hr, hp, hb⟩ := packLoop_struct maxLen (d :: rest) 0 0 le_rfl
    have hsrc : (get_context_for_generation (d :: rest) maxLen).sources =
        ((d :: rest).take n).map EnhancedDoc.source := hs
    have hsc : (get_context_for_generation (d :: rest) maxLen).relevance_scores =
        ((d :: rest).take n).map EnhancedDoc.relevance_score := hr
    refine ⟨?_, ?_, n, hn, hsrc, hsc,
      (packLoop maxLen (d :: rest) 0 0).1, hp, rfl, ?_⟩
    · rw [hsrc, hsc]
      simp
    · rfl
    · intro j hj
      obtain ⟨body, hbody, hdisj⟩ := hb j hj
      refine ⟨body, ?_, ?_⟩
      · simpa using hbody
      · rcases hdisj with h | ⟨-, hj0, h⟩
        · exact Or.inl h
        · exact Or.inr ⟨hj0, by simpa using h⟩

set_option maxRecDepth 10000 in
/-- C1 (counterexample): for a model name that does not resolve in the
registry, the fallback query (src/retrieval_system.py line 36) is returned
without the 500-character cap: a 500-character unknown model name yields a
query of 529 characters. -/
theorem construct_search_query_unknown_model_overlong :
    500 < (construct_search_query (String.mk (List.replicate 500 'x')) "" "").length := by
  decide

/-- C1 (amended): the 500-character cap holds for every model name that
resolves in the registry (the capped branch, src/retrieval_system.py line
79), for every description and focus area; for unresolved names the
uncapped fallback can exceed it. -/
theorem construct_search_query_length_le (m d f : String)
    (h : (get_model m).isSome = true) :
    (construct_search_query m d f).length ≤ 500 := by
  obtain ⟨mi, hmi⟩ := Option.isSome_iff_exists.mp h
  unfold construct_search_query
  rw [hmi]
  exact strTake_length_le _ _

theorem construct_search_query_length_le_witness :
    (get_model "k_epsilon").isSome = true ∧
    (construct_search_query "k_epsilon" "airfoil flow" "separation").length ≤ 500 :=
  ⟨by decide,
   construct_search_query_length_le "k_epsilon" "airfoil flow" "separation" (by decide)⟩

theorem collapseWs_space_eq (l : List Char) :
    ∀ c ∈ collapseWs l, pyIsSpace c = true → c = ' ' := by
  induction l with
  | nil => simp [collapseWs]
  | cons a tl ih =>
    cases tl with
    | nil =>
      intro c hc hs
      by_cases h : pyIsSpace a
      · simp [collapseWs, h] at hc
        exact hc
      · simp [collapseWs, h] at hc
        subst hc
        simp [h] at hs
    | cons b tl2 =>
      intro c hc hs
      by_cases ha : pyIsSpace a
      · by_cases hb : pyIsSpace b
        · rw [show collapseWs (a :: b :: tl2) = collapseWs (b :: tl2) from by
            simp [collapseWs, ha, hb]] at hc
          exact ih c hc hs
        · rw [show collapseWs (a :: b :: tl2) = ' ' :: collapseWs (b :: tl2) from by
            simp [collapseWs, ha, hb]] at hc
          rcases List.mem_cons.mp hc with h | h
          · exact h
          · exact ih c h hs
      · rw [show collapseWs (a :: b :: tl2) = a :: collapseWs (b :: tl2) from by
          simp [collapseWs, ha]] at hc
        rcases List.mem_cons.mp hc with h | h
        · subst h
          simp [ha] at hs
        · exact ih c h hs

theorem collapseWs_cons_nonspace (b : Char) (tl : List Char)
    (hb : pyIsSpace b = false) : ∃ t, collapseWs (b :: tl) = b :: t := by
  cases tl with
  | nil => exact ⟨[], by simp [collapseWs, hb]⟩
  | cons c tl2 => exact ⟨collapseWs (c :: tl2), by simp [collapseWs, hb]⟩

theorem collapseWs_chain (l : List Char) :
    List.Chain' (fun a b => ¬(pyIsSpace a = true ∧ pyIsSpace b = true))
      (collapseWs l) := by
  induction l with
  | nil => simp [collapseWs]
  | cons a tl ih =>
    cases tl with
    | nil => by_cases h : pyIsSpace a <;> simp [collapseWs, h]
    | cons b tl2 =>
      by_cases ha : pyIsSpace a
      · by_cases hb : pyIsSpace b
        · rw [show collapseWs (a :: b :: tl2) = collapseWs (b :: tl2) from by
            simp [collapseWs, ha, hb]]
          exact ih
        · rw [show collapseWs (a :: b :: tl2) = ' ' :: collapseWs (b :: tl2) from by
            simp [collapseWs, ha, hb]]
          rw [List.chain'_cons']
          refine ⟨?_, ih⟩
          intro y hy
          obtain ⟨t, ht⟩ := collapseWs_cons_nonspace b tl2 (by simpa using hb)
          rw [ht] at hy
          simp only [List.head?_cons, Option.mem_def, Option.some.injEq] at hy
          subst hy
          simp [hb]
      · rw [show collapseWs (a :: b :: tl2) = a :: collapseWs (b :: tl2) from by
          simp [collapseWs, ha]]
        rw [List.chain'_cons']
        refine ⟨?_, ih⟩
        intro y hy
        simp [ha]

theorem collapseWs_fixed (l : List Char) :
    (∀ c ∈ l, pyIsSpace c = true → c = ' ') →
    List.Chain' (fun a b => ¬(pyIsSpace a = true ∧ pyIsSpace b = true)) l →
    collapseWs l = l := by
  induction l with
  | nil => intro _ _; rfl
  | cons a tl ih =>
    cases tl with
    | nil =>
      intro hmem _
      by_cases h : pyIsSpace a
      · have ha := hmem a (by simp) h
        simp [collapseWs, h, ha]
      · simp [collapseWs, h]
    | cons b tl2 =>
      intro hmem hch
      rw [List.chain'_cons] at hch
      by_cases ha : pyIsSpace a
      · have hb : pyIsSpace b = false := by
          by_contra hb2
          exact hch.1 ⟨ha, by simpa using hb2⟩
        have ha2 : a = ' ' := hmem a (by simp) ha
        rw [show collapseWs (a :: b :: tl2) = ' ' :: collapseWs (b :: tl2) from by
          simp [collapseWs, ha, hb]]
        rw [ih (fun c hc hs => hmem c (by simp [hc]) hs) hch.2, ha2]
      · rw [show collapseWs (a :: b :: tl2) = a :: collapseWs (b :: tl2) from by
          simp [collapseWs, ha]]
        rw [ih (fun c hc hs => hmem c (by simp [hc]) hs) hch.2]

theorem dropWhileGeneral_head_false {α : Type} (p : α → Bool) (l : List α) :
    ∀ c tl2, l.dropWhile p = c :: tl2 → p c = false := by
  induction l with
  | nil => simp
  | cons a tl ih =>
    intro c tl2 h
    by_cases hp : p a
    · simp [List.dropWhile_cons, hp] at h
      exact ih c tl2 h
    · simp [List.dropWhile_cons, hp] at h
      obtain ⟨rfl, -⟩ := h
      simpa using hp

theorem stripChars_subset (l : List Char) : ∀ c ∈ stripChars l, c ∈ l := by
  intro c hc
  have h1 : c ∈ l.dropWhile pyIsSpace :=
    (List.rdropWhile_prefix pyIsSpace (l.dropWhile pyIsSpace)).subset hc
  exact (List.dropWhile_sublist pyIsSpace).subset h1

theorem stripChars_chain (l : List Char)
    (h : List.Chain' (fun a b => ¬(pyIsSpace a = true ∧ pyIsSpace b = true)) l) :
    List.Chain' (fun a b => ¬(pyIsSpace a = true ∧ pyIsSpace b = true))
      (stripChars l) := by
  have hA : List.Chain' (fun a b => ¬(pyIsSpace a = true ∧ pyIsSpace b = true))
      (l.dropWhile pyIsSpace) := by
    have hsplit := List.takeWhile_append_dropWhile (p := pyIsSpace) (l := l)
    rw [← hsplit] at h
    exact h.right_of_append
  obtain ⟨t, ht⟩ := List.rdropWhile_prefix pyIsSpace (l.dropWhile pyIsSpace)
  rw [← ht] at hA
  exact hA.left_of_append

theorem stripChars_idem (l : List Char) : stripChars (stripChars l) = stripChars l := by
  have hdwB : (stripChars l).dropWhile pyIsSpace = stripChars l := by
    cases hB : stripChars l with
    | nil => simp
    | cons c tl =>
      obtain ⟨t, ht⟩ := List.rdropWhile_prefix pyIsSpace (l.dropWhile pyIsSpace)
      have hA : l.dropWhile pyIsSpace = c :: (tl ++ t) := by
        rw [← ht]
        unfold stripChars at hB
        rw [hB]
        simp
      have hpc : pyIsSpace c = false :=
        dropWhileGeneral_head_false pyIsSpace l c (tl ++ t) hA
      simp [List.dropWhile_cons, hpc]
  show ((stripChars l).dropWhile pyIsSpace).rdropWhile pyIsSpace = stripChars l
  rw [hdwB]
  exact List.rdropWhile_idempotent pyIsSpace (l.dropWhile pyIsSpace)

theorem no_nl_collapseWs (l : List Char) : '\n' ∉ collapseWs l := by
  intro h
  have h2 := collapseWs_space_eq l '\n' h (by decide)
  exact absurd h2 (by decide)

theorem subNlPairsAux_no_nl (fuel : Nat) (l : List Char) :
    '\n' ∉ l → subNlPairsAux fuel l = l := by
  induction fuel generalizing l with
  | zero => cases l <;> intro _ <;> rfl
  | succ fuel ih =>
    cases l with
    | nil => intro _; rfl
    | cons c rest =>
      intro h
      have hc : ¬ c = '\n' := fun hh => h (by simp [hh])
      rw [subNlPairsAux]
      rw [if_neg (by simp [hc])]
      rw [ih rest (fun hh => h (by simp [hh]))]

theorem subNlPairs_no_nl (l : List Char) : '\n' ∉ l → subNlPairs l = l :=
  fun h => subNlPairsAux_no_nl l.length l h

theorem clean_text_idem (t : String) : clean_text (clean_text t) = clean_text t := by
  have hnl : '\n' ∉ collapseWs t.data := no_nl_collapseWs t.data
  have h1 : subNlPairs (collapseWs t.data) = collapseWs t.data :=
    subNlPairs_no_nl _ hnl
  have humem : ∀ c ∈ stripChars (collapseWs t.data), pyIsSpace c = true → c = ' ' :=
    fun c hc hs => collapseWs_space_eq t.data c (stripChars_subset _ c hc) hs
  have huch := stripChars_chain (collapseWs t.data) (collapseWs_chain t.data)
  have h2 : collapseWs (stripChars (collapseWs t.data)) =
      stripChars (collapseWs t.data) := collapseWs_fixed _ humem huch
  have hnl2 : '\n' ∉ stripChars (collapseWs t.data) :=
    fun hh => hnl (stripChars_subset _ _ hh)
  have h3 : subNlPairs (stripChars (collapseWs t.data)) =
      stripChars (collapseWs t.data) := subNlPairs_no_nl _ hnl2
  show (⟨stripChars (subNlPairs (collapseWs
      (String.data ⟨stripChars (subNlPairs (collapseWs t.data))⟩)))⟩ : String) =
    ⟨stripChars (subNlPairs (collapseWs t.data))⟩
  rw [h1]
  show (⟨stripChars (subNlPairs (collapseWs (stripChars (collapseWs t.data))))⟩ : String) =
    (⟨stripChars (collapseWs t.data)⟩ : String)
  rw [h2, h3, stripChars_idem]

/-- C8 (counterexample): `chunk_text` does not normalize its input before
splitting — chunking the raw text `"a  b"` yields the chunk `"a  b"`, while
chunking its normalized form (`_clean_text`, which collapses the double
space) yields `"a b"`; the two chunkings differ. -/
theorem chunk_text_splits_raw_text :
    (chunk_text defaultSplitText "a  b" ()).map Chunk.text ≠
      (chunk_text defaultSplitText (clean_text "a  b") ()).map Chunk.text := by
  decide

/-- C8 (amended): `chunk_text` splits the text it is given as-is;
`_clean_text` normalization is applied only in the upstream PDF/HTML
extraction helpers, not by `chunk_text`, so chunking a raw text generally
differs from chunking its normalized form.  The claimed equality holds
exactly on already-normalized inputs: normalization is idempotent, so
chunking a normalized text coincides with chunking its normalized form,
for every splitter and metadata. -/
theorem chunk_text_on_normalized (split_text : String → List String) {α : Type}
    (metadata : α) (text : String) :
    chunk_text split_text (clean_text text) metadata =
      chunk_text split_text (clean_text (clean_text text)) metadata := by
  rw [clean_text_idem]
